import Mathlib

/-!
Verification of the model-router core against its specification.

Shallow embedding of the JavaScript source:
JS numbers used as integer timestamps, durations and counters become `Int`
or `Nat`; JS numbers used as fractional metrics (uptime, latency averages,
costs, scores) become `ℚ`; absent object properties and `null` become
`Option`; the JS truthiness of `||` defaults (where `0`, `""` and
`undefined` all select the fallback) is modelled explicitly at each site.
Stateful methods become functions from the explicit state to the new state.
-/

namespace ModelRouter

/-! ## Circuit breaker (src/router/RouterEngine: loadProviders,
isProviderAvailable, recordCircuitBreakerSuccess, recordCircuitBreakerFailure) -/

/-- The three breaker states, the JS strings "closed", "open", "half-open". -/
inductive BreakerState where
  | closed
  | opened
  | halfOpen
deriving DecidableEq

/-- One per-provider circuit breaker record, as created in loadProviders. -/
structure CircuitBreaker where
  state : BreakerState
  failureCount : Nat
  lastFailureTime : Option Int
  nextAttemptTime : Option Int
  threshold : Nat
  timeout : Int
deriving DecidableEq

/-- The breaker created for every loaded provider in loadProviders. -/
def initialBreaker : CircuitBreaker :=
  { state := .closed, failureCount := 0, lastFailureTime := none,
    nextAttemptTime := none, threshold := 5, timeout := 60000 }

/-- isProviderAvailable. The map lookup is the `Option CircuitBreaker`
argument: a missing entry returns true with no state change. In the
"open" case the JS comparison `now >= breaker.nextAttemptTime` coerces a
null nextAttemptTime to 0, hence `getD 0`; when the cool-down has expired
the breaker is mutated to "half-open". The returned pair is
(return value, updated map entry). -/
def isProviderAvailable (now : Int) : Option CircuitBreaker → Bool × Option CircuitBreaker
  | none => (true, none)
  | some b =>
    match b.state with
    | .closed => (true, some b)
    | .opened =>
      if now ≥ b.nextAttemptTime.getD 0 then
        (true, some { b with state := .halfOpen })
      else
        (false, some b)
    | .halfOpen => (true, some b)

/-- recordCircuitBreakerSuccess: resets failureCount and lastFailureTime
unconditionally, and closes the breaker when it was half-open. -/
def recordCircuitBreakerSuccess : Option CircuitBreaker → Option CircuitBreaker
  | none => none
  | some b =>
    let b1 := { b with failureCount := 0, lastFailureTime := (none : Option Int) }
    if b1.state = .halfOpen then some { b1 with state := .closed } else some b1

/-- recordCircuitBreakerFailure: increments failureCount, stamps the
failure time, and opens the breaker once the threshold is reached, with
nextAttemptTime = now + timeout. The source reads Date.now() twice in
the same handler; both reads are the single instant `now` here. -/
def recordCircuitBreakerFailure (now : Int) : Option CircuitBreaker → Option CircuitBreaker
  | none => none
  | some b =>
    let b1 := { b with failureCount := b.failureCount + 1, lastFailureTime := some now }
    if b1.failureCount ≥ b1.threshold then
      some { b1 with state := .opened, nextAttemptTime := some (now + b1.timeout) }
    else
      some b1

/-- A sequence of consecutive recordCircuitBreakerFailure calls at the
given instants, with no intervening success. -/
def foldFailures (times : List Int) (b : Option CircuitBreaker) : Option CircuitBreaker :=
  times.foldl (fun ob t => recordCircuitBreakerFailure t ob) b

/-- The candidate filter of routeRequest: keep a requested provider name
when it is in the loaded provider map and isProviderAvailable accepts it.
Only the boolean result of isProviderAvailable is consulted here; the
in-place open-to-half-open mutation does not occur for the missing-entry
case this file reasons about. -/
def candidateFilter (availableProviders : List String) (loaded : String → Bool)
    (breakers : String → Option CircuitBreaker) (now : Int) : List String :=
  availableProviders.filter (fun name => loaded name && (isProviderAvailable now (breakers name)).1)

/-! ## TenantManager (src/config/TenantManager: checkQuota, trackUsage, getUsage) -/

/-- A tenant as checkQuota consumes it: only the quotas object matters,
an association list of quota-kind names to numeric limits, or absent. -/
structure Tenant where
  quotas : Option (List (String × Int))

/-- The per-tenant usage record kept in usageData. -/
structure TenantUsage where
  daily_requests : Int
  monthly_requests : Int
  total_tokens : Int
  estimated_cost : ℚ
  last_reset : Int

/-- The all-zero usage object getUsage returns for an unknown tenant
(the source object carries no last_reset; 0 stands for that absence,
and checkQuota never reads it). -/
def zeroUsage : TenantUsage :=
  { daily_requests := 0, monthly_requests := 0, total_tokens := 0,
    estimated_cost := 0, last_reset := 0 }

/-- Property lookup usage[quotaType]: an unknown key is undefined, which
the source coerces to 0 with `|| 0`. -/
def usageField (u : TenantUsage) (k : String) : Int :=
  if k == "daily_requests" then u.daily_requests
  else if k == "monthly_requests" then u.monthly_requests
  else if k == "total_tokens" then u.total_tokens
  else 0

/-- The limit read `tenant.quotas[quotaType] || 1000`: a missing key or a
zero limit (JS falsy) both fall back to 1000. -/
def quotaLimit (qs : List (String × Int)) (k : String) : Int :=
  match (qs.find? (fun kv => kv.1 == k)).map (fun kv => kv.2) with
  | some v => if v == 0 then 1000 else v
  | none => 1000

/-- The result object of checkQuota. The no-tenant / no-quotas branch
returns Infinity for remaining and limit and omits used; those JS values
are `none` here. -/
structure QuotaResult where
  allowed : Bool
  remaining : Option Int
  limit : Option Int
  used : Option Int
deriving DecidableEq

/-- checkQuota(tenantId, quotaType). The tenant argument is the cache
lookup result and the usage argument is the usageData map entry for the
tenant; the source method reads both and mutates neither, and takes no
clock input at all. -/
def checkQuota (tenant : Option Tenant) (usage : Option TenantUsage)
    (quotaType : String) : QuotaResult :=
  match tenant with
  | none => { allowed := true, remaining := none, limit := none, used := none }
  | some t =>
    match t.quotas with
    | none => { allowed := true, remaining := none, limit := none, used := none }
    | some qs =>
      let limit := quotaLimit qs quotaType
      let used := usageField (usage.getD zeroUsage) quotaType
      let remaining := max 0 (limit - used)
      { allowed := decide (0 < remaining), remaining := some remaining,
        limit := some limit, used := some used }

/-- The usage increments passed to trackUsage; the source applies `|| 0`
to absent fields, so both are plain numbers here. -/
structure UsageDelta where
  total_tokens : Int
  estimated_cost : ℚ

/-- trackUsage(tenantId, usage) at instant `now`: initialises the record
on first use with last_reset = now, increments the counters, then resets
the daily counter to 1 (counting the current request) when the last reset
is more than 24 hours old. -/
def trackUsage (usage : Option TenantUsage) (delta : UsageDelta) (now : Int) : TenantUsage :=
  let u0 := usage.getD { daily_requests := 0, monthly_requests := 0, total_tokens := 0,
                         estimated_cost := 0, last_reset := now }
  let u1 := { u0 with
    daily_requests := u0.daily_requests + 1,
    monthly_requests := u0.monthly_requests + 1,
    total_tokens := u0.total_tokens + delta.total_tokens,
    estimated_cost := u0.estimated_cost + delta.estimated_cost }
  let oneDayAgo := now - 86400000
  if u1.last_reset < oneDayAgo then
    { u1 with daily_requests := 1, last_reset := now }
  else
    u1

/-- A concrete usage record used by a quota witness below. -/
def sampleUsage : TenantUsage :=
  { daily_requests := 3, monthly_requests := 3, total_tokens := 0,
    estimated_cost := 0, last_reset := 0 }

/-- A concrete quota table used by a quota witness below. -/
def sampleQuotas : List (String × Int) := [("daily_requests", 5)]

/-! ## Health tracker (src/router/HealthMonitor.js: updateHealthData,
recordSuccess, recordFailure) -/

/-- One health sample as pushed into the history: the status string, the
latency, the sample timestamp and the consecutive-failure count the
caller computed. -/
structure HealthSample where
  status : String
  latency : ℚ
  timestamp : Int
  consecutive_failures : Int

/-- The per-provider health record. last_check and consecutive_failures
are written on the first update; 0 stands for their initial absence. -/
structure ProviderHealth where
  uptime : ℚ
  avg_latency : ℚ
  cost : ℚ
  history : List HealthSample
  last_check : Int
  consecutive_failures : Int

/-- The record updateHealthData creates for a provider seen for the
first time: uptime 1.0, avg_latency 200, cost 0.002, empty history. -/
def initialProviderHealth : ProviderHealth :=
  { uptime := 1, avg_latency := 200, cost := 2 / 1000, history := [],
    last_check := 0, consecutive_failures := 0 }

/-- The trailing n elements of a list; slice(-n) of a non-empty slice
argument in the source. -/
def lastN (n : Nat) (l : List α) : List α := l.drop (l.length - n)

/-- Push one sample and cap the history at 100 entries (push then shift). -/
def pushCap (history : List HealthSample) (newData : HealthSample) : List HealthSample :=
  let h1 := history ++ [newData]
  if h1.length > 100 then h1.tail else h1

/-- updateHealthData(providerName, newData) for one provider: initialise
the record if absent, append the sample with the 100-entry cap, then
recompute uptime and avg_latency over the trailing 20 samples
(slice(-20), written lastN 20 here). -/
def updateHealthData (cur : Option ProviderHealth) (newData : HealthSample) : ProviderHealth :=
  let p := cur.getD initialProviderHealth
  let history := pushCap p.history newData
  let recent := lastN 20 history
  let successful := (recent.filter (fun s => s.status == "healthy")).length
  let uptime := if 0 < recent.length then (successful : ℚ) / (recent.length : ℚ) else p.uptime
  let healthyEntries := recent.filter (fun s => s.status == "healthy")
  let avg_latency :=
    if 0 < healthyEntries.length then
      (healthyEntries.foldl (fun sum s => sum + s.latency) 0) / (healthyEntries.length : ℚ)
    else p.avg_latency
  { p with history := history, uptime := uptime, avg_latency := avg_latency,
           last_check := newData.timestamp,
           consecutive_failures := newData.consecutive_failures }

/-- A whole sequence of updateHealthData calls for one provider, starting
from no record (the state before any sample is recorded). -/
def runHealthUpdates (samples : List HealthSample) : Option ProviderHealth :=
  samples.foldl (fun acc s => some (updateHealthData acc s)) none

/-- The history of an optional record; a missing record has none. -/
def histOf : Option ProviderHealth → List HealthSample
  | none => []
  | some p => p.history

/-- A concrete healthy sample used by a health witness below. -/
def healthySample : HealthSample :=
  { status := "healthy", latency := 100, timestamp := 0, consecutive_failures := 0 }

/-! ## Policy engine (src/router/PolicyEngine.js: getDefaultPolicies,
selectProviders, selectByCost, selectByLatency, selectByScore,
calculateScore, getProviderCost, selectDefault). The JS Array.sort with a
numeric comparator is a stable sort; it is embedded as insertion sort
with the non-strict relation induced by the comparator, which sorts by
the comparator and keeps the input order of ties. -/

/-- The health snapshot the engine receives: the per-provider record map. -/
abbrev HealthData := String → Option ProviderHealth

/-- The weights object of the balanced policy. -/
structure Weights where
  cost : ℚ
  latency : ℚ
  uptime : ℚ

/-- A routing policy record; the description string carries no behaviour
and is elided. -/
structure Policy where
  strategy : String
  min_uptime : Option ℚ
  max_latency : Option ℚ
  weights : Option Weights

/-- The default weights used when a balanced policy carries none. -/
def defaultWeights : Weights := { cost := 3 / 10, latency := 4 / 10, uptime := 3 / 10 }

/-- The built-in balanced policy. -/
def balancedPolicy : Policy :=
  { strategy := "balanced", min_uptime := some (9 / 10), max_latency := none,
    weights := some defaultWeights }

/-- getDefaultPolicies as a lookup by policy name. -/
def getDefaultPolicies (name : String) : Option Policy :=
  if name == "performance-first" then
    some { strategy := "performance-first", min_uptime := some (9 / 10),
           max_latency := some 500, weights := none }
  else if name == "cost-optimized" then
    some { strategy := "cost-optimized", min_uptime := some (95 / 100),
           max_latency := none, weights := none }
  else if name == "balanced" then
    some balancedPolicy
  else
    none

/-- The policy actually used: the entry for policyName, with the balanced
policy as the JS || fallback. -/
def resolvePolicy (policyName : String) : Policy :=
  (getDefaultPolicies policyName).getD balancedPolicy

/-- getProviderCost: the static cost table with the `|| 0.002` fallback;
the JS falsiness of the 0.0 entry for hugging-face makes that entry also
fall back to 0.002. The healthData parameter of the source method is
never read and is elided. -/
def getProviderCost (providerName : String) : ℚ :=
  let entry : Option ℚ :=
    if providerName == "google-gemini" then some (1 / 1000)
    else if providerName == "hugging-face" then some 0
    else if providerName == "cohere" then some (2 / 1000)
    else none
  match entry with
  | some v => if v = 0 then 2 / 1000 else v
  | none => 2 / 1000

/-- `healthData[p]?.avg_latency || 999999` (0 is falsy). -/
def avgLatencyOr (healthData : HealthData) (p : String) : ℚ :=
  match healthData p with
  | none => 999999
  | some h => if h.avg_latency = 0 then 999999 else h.avg_latency

/-- `healthData[p]?.uptime || 0.5` as read in selectDefault (0 is falsy). -/
def uptimeOr (healthData : HealthData) (p : String) : ℚ :=
  match healthData p with
  | none => 1 / 2
  | some h => if h.uptime = 0 then 1 / 2 else h.uptime

/-- `policy.min_uptime || 0.90` (0 is falsy). -/
def minUptimeOf (policy : Policy) : ℚ :=
  match policy.min_uptime with
  | none => 9 / 10
  | some m => if m = 0 then 9 / 10 else m

/-- `policy.weights || default`. -/
def weightsOf (policy : Policy) : Weights := policy.weights.getD defaultWeights

/-- calculateScore(providerName, healthData[provider] || {}, weights):
the `|| 0.5` and `|| 1000` defaults apply both to a missing record and
to falsy zero fields. -/
def calculateScore (providerName : String) (health : Option ProviderHealth)
    (weights : Weights) : ℚ :=
  let uptime : ℚ :=
    match health with
    | none => 1 / 2
    | some h => if h.uptime = 0 then 1 / 2 else h.uptime
  let latency : ℚ :=
    match health with
    | none => 1000
    | some h => if h.avg_latency = 0 then 1000 else h.avg_latency
  let cost := getProviderCost providerName
  let uptimeScore := min uptime 1
  let latencyScore := max 0 (1 - latency / 2000)
  let costScore := max 0 (1 - cost / (1 / 100))
  uptimeScore * weights.uptime + latencyScore * weights.latency + costScore * weights.cost

/-- The uptime floor filter every policy applies first: keep a provider
with no health record, otherwise require uptime ≥ min_uptime. -/
def uptimeFilter (availableProviders : List String) (healthData : HealthData)
    (policy : Policy) : List String :=
  availableProviders.filter (fun provider =>
    match healthData provider with
    | none => true
    | some health => decide (minUptimeOf policy ≤ health.uptime))

/-- selectByCost: stable ascending sort by provider cost. -/
def selectByCost (providers : List String) : List String :=
  List.insertionSort (fun a b => getProviderCost a ≤ getProviderCost b) providers

/-- selectByLatency: stable ascending sort by average latency. -/
def selectByLatency (providers : List String) (healthData : HealthData) : List String :=
  List.insertionSort (fun a b => avgLatencyOr healthData a ≤ avgLatencyOr healthData b) providers

/-- The scored pairs selectByScore builds. -/
def scoredProviders (providers : List String) (healthData : HealthData)
    (policy : Policy) : List (String × ℚ) :=
  providers.map (fun provider =>
    (provider, calculateScore provider (healthData provider) (weightsOf policy)))

/-- selectByScore: stable descending sort of the scored pairs, then the
names are read back off. -/
def selectByScore (providers : List String) (healthData : HealthData)
    (policy : Policy) : List String :=
  (List.insertionSort (fun a b : String × ℚ => b.2 ≤ a.2)
    (scoredProviders providers healthData policy)).map (fun p => p.1)

/-- selectDefault: stable descending sort by uptime. -/
def selectDefault (providers : List String) (healthData : HealthData) : List String :=
  List.insertionSort (fun a b => uptimeOr healthData b ≤ uptimeOr healthData a) providers

/-- selectProviders(availableProviders, healthData, policyName, request):
resolve the policy, filter by the uptime floor, fall back to the whole
candidate list when the filter empties it, then dispatch on the strategy
string (the request argument is never read). -/
def selectProviders (availableProviders : List String) (healthData : HealthData)
    (policyName : String) : List String :=
  let policy := resolvePolicy policyName
  let healthyProviders := uptimeFilter availableProviders healthData policy
  if healthyProviders.isEmpty then
    availableProviders
  else if policy.strategy == "cost-optimized" then
    selectByCost healthyProviders
  else if policy.strategy == "performance-first" then
    selectByLatency healthyProviders healthData
  else if policy.strategy == "balanced" then
    selectByScore healthyProviders healthData policy
  else
    selectDefault healthyProviders healthData

/-! ## Failover executor (src/router/RouterEngine: executeWithFailover,
routeRequest effects on the health monitor and breakers) and the HTTP
error mapping of the chat route (src/api/routes/chat.js catch handler). -/

/-- recordSuccess of the health monitor: a healthy sample carrying the
measured latency, stamped at the current instant, resetting the
consecutive-failure count. -/
def recordSuccessHM (cur : Option ProviderHealth) (latency : ℚ) (now : Int) : ProviderHealth :=
  updateHealthData cur
    { status := "healthy", latency := latency, timestamp := now, consecutive_failures := 0 }

/-- recordFailure of the health monitor: an unhealthy sample with the
999999 sentinel latency and an incremented consecutive-failure count. -/
def recordFailureHM (cur : Option ProviderHealth) (now : Int) : ProviderHealth :=
  updateHealthData cur
    { status := "unhealthy", latency := 999999, timestamp := now,
      consecutive_failures := (cur.map (fun p => p.consecutive_failures)).getD 0 + 1 }

/-- The mutable state the failover loop updates: the health record map
and the circuit-breaker map. -/
structure RouterState where
  health : String → Option ProviderHealth
  breakers : String → Option CircuitBreaker

/-- The state updates of the success branch: a healthy tracker sample
with the measured duration, then a breaker success, both for the
succeeding provider only. -/
def applySuccessEffects (st : RouterState) (name : String) (duration : Int)
    (now : Int) : RouterState :=
  { health := fun n =>
      if n == name then some (recordSuccessHM (st.health name) (duration : ℚ) now)
      else st.health n,
    breakers := fun n =>
      if n == name then recordCircuitBreakerSuccess (st.breakers name)
      else st.breakers n }

/-- The state updates of the failure branch: an unhealthy tracker sample,
then a breaker failure at the current instant, both for the failing
provider only. -/
def applyFailureEffects (st : RouterState) (name : String) (now : Int) : RouterState :=
  { health := fun n =>
      if n == name then some (recordFailureHM (st.health name) now)
      else st.health n,
    breakers := fun n =>
      if n == name then recordCircuitBreakerFailure now (st.breakers name)
      else st.breakers n }

/-- The outcome of one provider call inside the failover loop, as decided
by executeWithTimeout: either a response body or an error message, with
the measured duration. A provider missing from the loaded map is the
failure outcome with the not-loaded message. -/
inductive CallOutcome where
  | success (body : String) (duration : Int)
  | failure (errMsg : String) (duration : Int)

/-- Whether the outcome is a success. -/
def CallOutcome.isSuccess : CallOutcome → Bool
  | .success _ _ => true
  | .failure _ _ => false

/-- The measured duration of the outcome. -/
def CallOutcome.duration : CallOutcome → Int
  | .success _ d => d
  | .failure _ d => d

/-- The error message of a failure outcome. -/
def CallOutcome.errMsg : CallOutcome → Option String
  | .success _ _ => none
  | .failure m _ => some m

/-- One attempt record as pushed onto the attempts array. -/
structure Attempt where
  provider : String
  status : String
  error : Option String
  duration : Int
deriving DecidableEq

/-- The attempt record the loop pushes for a provider, given its
outcome. -/
def mkAttempt (call : String → CallOutcome) (p : String) : Attempt :=
  match call p with
  | .success _ d => { provider := p, status := "success", error := none, duration := d }
  | .failure m d => { provider := p, status := "failed", error := some m, duration := d }

/-- The routing_metadata object attached to a successful response. -/
structure RoutingMetadata where
  primary_provider : String
  attempts : List Attempt
  total_processing_time : Int
  policy_used : String

/-- A successful failover result: the provider response body with the
attached routing metadata. -/
structure SuccessResponse where
  body : String
  routing_metadata : RoutingMetadata

/-- The ALL_PROVIDERS_FAILED error object with its attached fields. -/
structure AllFailedError where
  message : String
  attempts : List Attempt
  lastError : Option String
  providersAttempted : Nat

/-- orderedProviders.join with the comma-space separator. -/
def joinComma (l : List String) : String := String.intercalate ", " l

/-- The message of the ALL_PROVIDERS_FAILED error. -/
def allFailedMessage (orderedProviders : List String) : String :=
  "All providers failed. Attempted: " ++ joinComma orderedProviders

/-- One failing step of the loop as a clock-and-state transformer: the
clock advances by the measured duration and the failure effects are
recorded at the instant the attempt ends. The theorems apply it only to
providers whose outcome is a failure. -/
def failStep (call : String → CallOutcome) (cs : Int × RouterState) (p : String) :
    Int × RouterState :=
  (cs.1 + (call p).duration, applyFailureEffects cs.2 p (cs.1 + (call p).duration))

/-- The failover loop. The first list argument is the full ordered list
(used for the final error message and count); the second is the
remaining suffix; then the clock, the state and the attempts and
last-error accumulators. On success the loop stops, records the success
effects and returns the response with routing metadata; on failure it
records the failure effects and continues; when the suffix is exhausted
it raises the ALL_PROVIDERS_FAILED error carrying the accumulators. -/
def executeGo (call : String → CallOutcome) (orderedProviders : List String) :
    List String → Int → RouterState → List Attempt → Option String →
      Except AllFailedError SuccessResponse × RouterState
  | [], _clock, st, attempts, lastError =>
    (Except.error
      { message := allFailedMessage orderedProviders, attempts := attempts,
        lastError := lastError, providersAttempted := orderedProviders.length }, st)
  | name :: rest, clock, st, attempts, _lastError =>
    match call name with
    | .success body d =>
      let st1 := applySuccessEffects st name d (clock + d)
      let atts := attempts ++
        [{ provider := name, status := "success", error := none, duration := d }]
      (Except.ok
        { body := body,
          routing_metadata :=
            { primary_provider := name, attempts := atts,
              total_processing_time := d, policy_used := "intelligent_routing" } }, st1)
    | .failure m d =>
      let st1 := applyFailureEffects st name (clock + d)
      executeGo call orderedProviders rest (clock + d) st1
        (attempts ++ [{ provider := name, status := "failed", error := some m, duration := d }])
        (some m)

/-- executeWithFailover(request, orderedProviders) started at a clock
instant on a router state. -/
def executeWithFailover (call : String → CallOutcome) (orderedProviders : List String)
    (clock : Int) (st : RouterState) :
    Except AllFailedError SuccessResponse × RouterState :=
  executeGo call orderedProviders orderedProviders clock st [] none

/-- The last-error accumulator after a run of failures: the error message
of the last provider, or the initial accumulator when none ran. -/
def lastErrorOf (call : String → CallOutcome) (providers : List String)
    (lastError : Option String) : Option String :=
  match providers.getLast? with
  | none => lastError
  | some p => (call p).errMsg

/-- JS String.prototype.includes: some suffix of msg starts with pat. -/
def strIncludes (msg pat : String) : Bool :=
  msg.data.tails.any (fun t => pat.data.isPrefixOf t)

/-- The error body the chat route sends for a routing error. -/
structure ErrorBody where
  message : String
  errorType : String
  attempts : List Attempt
  providers_attempted : Nat
  processing_time_ms : Int

/-- The catch handler of POST /v1/chat/completions: pick the status code
and error type by substring tests on the error message (the
no-providers test runs first), and attach the per-attempt details. -/
def chatErrorResponse (message : String) (attempts : List Attempt)
    (providersAttempted : Nat) (duration : Int) : Nat × ErrorBody :=
  let statusAndType : Nat × String :=
    if strIncludes message "No providers available" then (503, "service_unavailable")
    else if strIncludes message "All providers failed" then (502, "bad_gateway")
    else (500, "api_error")
  (statusAndType.1,
   { message := message, errorType := statusAndType.2, attempts := attempts,
     providers_attempted := providersAttempted, processing_time_ms := duration })

/-- A router state with no health records and no breakers, used by the
failover witnesses. -/
def emptyRouterState : RouterState :=
  { health := fun _ => none, breakers := fun _ => none }

/-- A concrete outcome table used by the failover witnesses: provider
"a" fails, every other provider succeeds. -/
def sampleCall : String → CallOutcome :=
  fun p => if p == "a" then .failure "boom" 5 else .success "ok" 7

/-- A concrete outcome table where every provider fails. -/
def sampleFailCall : String → CallOutcome := fun _ => .failure "down" 3

/-! ## Provider adapters (src/providers/GoogleProvider.js transformResponse,
src/providers/HuggingFaceProvider.js transformResponse) -/

/-- estimateTokens: Math.ceil(text.length / 4). -/
def estimateTokens (text : String) : Nat := (text.length + 3) / 4

/-- One chat message of the normalized request. -/
structure Message where
  role : String
  content : String

/-- The part of the normalized request the response transformers read. -/
structure ChatRequest where
  model : String
  messages : List Message

/-- The usage block of a normalized response. -/
structure Usage where
  prompt_tokens : Nat
  completion_tokens : Nat
  total_tokens : Nat
deriving DecidableEq

/-- The fields of a normalized response the claims are about; id, object
and choices framing carry no token arithmetic and are elided. -/
structure NormalizedResponse where
  model : String
  content : String
  usage : Usage

namespace GoogleProvider

/-- One part of a Gemini candidate content. -/
structure GPart where
  text : Option String

/-- The content object of a Gemini candidate. -/
structure GContent where
  parts : List GPart

/-- One Gemini candidate. -/
structure GCandidate where
  content : Option GContent

/-- The upstream Gemini reply shape transformResponse consumes. -/
structure GoogleResponse where
  candidates : List GCandidate

/-- The extraction of the first candidate text, candidates index 0, its
content, its parts index 0, its text, each step optional; a missing link
or an empty string (JS falsy) yields the fallback "No response". -/
def extractContent (r : GoogleResponse) : String :=
  match r.candidates.head? with
  | none => "No response"
  | some c =>
    match c.content with
    | none => "No response"
    | some ct =>
      match ct.parts.head? with
      | none => "No response"
      | some p =>
        match p.text with
        | none => "No response"
        | some t => if t == "" then "No response" else t

/-- The content of messages[0]; request validation guarantees the list is
non-empty, and the transformer reads index 0 unconditionally. -/
def firstMessageContent (req : ChatRequest) : String :=
  (req.messages.headD { role := "", content := "" }).content

/-- GoogleProvider.transformResponse: normalized response whose usage is
estimated from the first request message and the extracted content; the
total is estimated over the concatenation of the two texts. -/
def transformResponse (googleResponse : GoogleResponse) (originalRequest : ChatRequest) :
    NormalizedResponse :=
  let content := extractContent googleResponse
  { model := originalRequest.model,
    content := content,
    usage :=
      { prompt_tokens := estimateTokens (firstMessageContent originalRequest),
        completion_tokens := estimateTokens content,
        total_tokens := estimateTokens (firstMessageContent originalRequest ++ content) } }

end GoogleProvider

namespace HuggingFaceProvider

/-- One element of an array-shaped HuggingFace reply. -/
structure HFItem where
  generated_text : Option String

/-- The two upstream HuggingFace reply shapes the transformer handles:
an array of generations, or a bare object with generated_text. The third
source branch (index 0 of a non-array object) can never produce a value
on these shapes and folds into the final fallback. -/
inductive HFResponse where
  | arr (items : List HFItem)
  | obj (generated_text : Option String)

/-- The raw content extraction with its two fallbacks: "No response" for
a missing or falsy array entry, "No response available" when the object
shape carries no truthy generated_text. -/
def extractContent : HFResponse → String
  | .arr items =>
    match items.head? with
    | none => "No response"
    | some it =>
      match it.generated_text with
      | none => "No response"
      | some t => if t == "" then "No response" else t
  | .obj g =>
    match g with
    | none => "No response available"
    | some t => if t == "" then "No response available" else t

/-- The user message text: the content of the first message whose role
is the user role, with the JS || fallback to the empty string. -/
def userMessageContent (req : ChatRequest) : String :=
  match req.messages.find? (fun m => m.role == "user") with
  | none => ""
  | some m => if m.content == "" then "" else m.content

/-- The echo cleanup: when the generated text starts with the user
message, drop that prefix and trim whitespace. -/
def cleanContent (hfResponse : HFResponse) (req : ChatRequest) : String :=
  let content := extractContent hfResponse
  let userMessage := userMessageContent req
  if content.startsWith userMessage then
    (content.drop userMessage.length).trim
  else
    content

/-- HuggingFaceProvider.transformResponse: normalized response whose
usage is estimated from the user message and the cleaned content; the
total is estimated over the concatenation of the two texts. -/
def transformResponse (hfResponse : HFResponse) (originalRequest : ChatRequest) :
    NormalizedResponse :=
  let content := cleanContent hfResponse originalRequest
  { model := originalRequest.model,
    content := content,
    usage :=
      { prompt_tokens := estimateTokens (userMessageContent originalRequest),
        completion_tokens := estimateTokens content,
        total_tokens := estimateTokens (userMessageContent originalRequest ++ content) } }

end HuggingFaceProvider

end ModelRouter

namespace ModelRouter

/-- C3: starting from the CLOSED breaker with failure_count = 0 that
loadProviders creates (threshold 5, cool-down 60000 ms), after exactly
five consecutive recordCircuitBreakerFailure calls, at any instants, the
breaker is OPEN with next_attempt_time equal to the fifth failure instant
plus 60000, the failure count is 5, the breaker was still CLOSED after
only four failures, and isProviderAvailable returns false at every
instant strictly before next_attempt_time. -/
theorem breaker_threshold_opens (t1 t2 t3 t4 t5 : Int) :
    (∃ cb4, foldFailures [t1, t2, t3, t4] (some initialBreaker) = some cb4 ∧
      cb4.state = .closed) ∧
    ∃ cb, foldFailures [t1, t2, t3, t4, t5] (some initialBreaker) = some cb ∧
      cb.state = .opened ∧
      cb.failureCount = 5 ∧
      cb.lastFailureTime = some t5 ∧
      cb.nextAttemptTime = some (t5 + 60000) ∧
      ∀ now : Int, now < t5 + 60000 →
        (isProviderAvailable now (some cb)).1 = false := by
  refine ⟨⟨_, rfl, rfl⟩, _, rfl, rfl, rfl, rfl, rfl, ?_⟩
  intro now hnow
  have h60 : initialBreaker.timeout = 60000 := rfl
  simp only [isProviderAvailable, Option.getD_some, ge_iff_le]
  rw [if_neg (by omega)]

/-- Witness for breaker_threshold_opens at concrete instants. -/
theorem breaker_threshold_opens_witness :
    ∃ cb, foldFailures [1, 2, 3, 4, 5] (some initialBreaker) = some cb ∧
      (isProviderAvailable 60000 (some cb)).1 = false := by
  obtain ⟨-, cb, hcb, -, -, -, -, havail⟩ := breaker_threshold_opens 1 2 3 4 5
  exact ⟨cb, hcb, havail 60000 (by omega)⟩

/-- C4: from an OPEN breaker checked at an instant past next_attempt_time,
isProviderAvailable returns true and transitions the breaker to
HALF_OPEN; a subsequent recordCircuitBreakerSuccess closes the breaker
and resets failure_count to 0. -/
theorem breaker_recovery (b : CircuitBreaker) (T now : Int)
    (hstate : b.state = .opened)
    (hnext : b.nextAttemptTime = some T)
    (hnow : T ≤ now) :
    (isProviderAvailable now (some b)).1 = true ∧
    (isProviderAvailable now (some b)).2 = some { b with state := .halfOpen } ∧
    recordCircuitBreakerSuccess (isProviderAvailable now (some b)).2 =
      some { b with state := .closed, failureCount := 0,
                    lastFailureTime := (none : Option Int) } := by
  have havail : isProviderAvailable now (some b) =
      (true, some { b with state := .halfOpen }) := by
    simp only [isProviderAvailable, hstate, hnext, Option.getD_some, ge_iff_le]
    rw [if_pos hnow]
  refine ⟨by rw [havail], by rw [havail], ?_⟩
  rw [havail]
  simp [recordCircuitBreakerSuccess]

/-- Witness for breaker_recovery on a concrete OPEN breaker. -/
theorem breaker_recovery_witness :
    (isProviderAvailable 70000
      (some { state := .opened, failureCount := 5, lastFailureTime := some 10,
              nextAttemptTime := some 60010, threshold := 5, timeout := 60000 })).1 = true :=
  (breaker_recovery
    { state := .opened, failureCount := 5, lastFailureTime := some 10,
      nextAttemptTime := some 60010, threshold := 5, timeout := 60000 }
    60010 70000 rfl rfl (by omega)).1

/-- C10: a provider name with no circuit-breaker entry is reported
available by isProviderAvailable (with no state change), and therefore
passes the routeRequest candidate filter exactly when it is loaded: the
breaker never gates it. -/
theorem missing_breaker_available (now : Int) (name : String)
    (availableProviders : List String) (loaded : String → Bool)
    (breakers : String → Option CircuitBreaker)
    (hmiss : breakers name = none) :
    isProviderAvailable now (breakers name) = (true, none) ∧
    (name ∈ candidateFilter availableProviders loaded breakers now ↔
      name ∈ availableProviders ∧ loaded name = true) := by
  constructor
  · rw [hmiss]; rfl
  · unfold candidateFilter
    rw [List.mem_filter]
    constructor
    · rintro ⟨hmem, hcond⟩
      rw [hmiss] at hcond
      simp only [isProviderAvailable, Bool.and_eq_true] at hcond
      exact ⟨hmem, hcond.1⟩
    · rintro ⟨hmem, hl⟩
      refine ⟨hmem, ?_⟩
      rw [hmiss, hl]
      rfl

/-- Witness for missing_breaker_available on a concrete map with no
entry for the queried name. -/
theorem missing_breaker_available_witness :
    isProviderAvailable 0 ((fun _ => (none : Option CircuitBreaker)) "groq") = (true, none) ∧
    ("groq" ∈ candidateFilter ["groq"] (fun _ => true) (fun _ => none) 0 ↔
      "groq" ∈ ["groq"] ∧ (fun (_ : String) => true) "groq" = true) :=
  missing_breaker_available 0 "groq" ["groq"] (fun _ => true) (fun _ => none) rfl

/-- C8 counterexample: a tenant with daily quota 5, whose usage shows 5
daily requests and whose last reset is arbitrarily stale (checkQuota
takes no clock, so "at least 24 h old" holds for any current instant),
is still reported as used = 5 and not allowed: the daily-reset rule is
not applied by the read. Under the claim the stale count would be
treated as reset, giving used = 0 and allowed = true. -/
theorem checkQuota_no_daily_reset_counterexample :
    checkQuota (some { quotas := some [("daily_requests", 5)] })
        (some { daily_requests := 5, monthly_requests := 5, total_tokens := 0,
                estimated_cost := 0, last_reset := 0 })
        "daily_requests" =
      { allowed := false, remaining := some 0, limit := some 5, used := some 5 } := by
  rfl

/-- C8 amended: checkQuota is purely a read computing
{allowed, used, limit, remaining} from the raw current usage, with
used read untouched by any reset rule (the result is invariant under
last_reset), and the daily-reset rule lives in trackUsage instead: a
record whose last reset is more than 24 h old has daily_requests set to
1 (the tracked request itself) and last_reset refreshed. -/
theorem checkQuota_pure_read_no_reset (t : Tenant) (qs : List (String × Int))
    (hq : t.quotas = some qs) (u : TenantUsage) (k : String) :
    checkQuota (some t) (some u) k =
      { allowed := decide (0 < max 0 (quotaLimit qs k - usageField u k)),
        remaining := some (max 0 (quotaLimit qs k - usageField u k)),
        limit := some (quotaLimit qs k),
        used := some (usageField u k) } ∧
    (∀ t0 : Int, checkQuota (some t) (some { u with last_reset := t0 }) k =
      checkQuota (some t) (some u) k) ∧
    (∀ (delta : UsageDelta) (now : Int), u.last_reset < now - 86400000 →
      (trackUsage (some u) delta now).daily_requests = 1 ∧
      (trackUsage (some u) delta now).last_reset = now) := by
  refine ⟨?_, ?_, ?_⟩
  · simp only [checkQuota, hq, Option.getD_some]
  · intro t0
    simp only [checkQuota, hq, Option.getD_some]
    have h1 : usageField { u with last_reset := t0 } k = usageField u k := by
      simp [usageField]
    simp only [h1]
  · intro delta now hstale
    unfold trackUsage
    simp only [Option.getD_some]
    rw [if_pos (by omega)]
    exact ⟨rfl, rfl⟩

/-- Witness for checkQuota_pure_read_no_reset on a concrete tenant,
usage record and stale clock. -/
theorem checkQuota_pure_read_no_reset_witness :
    checkQuota (some { quotas := some sampleQuotas }) (some sampleUsage) "daily_requests" =
      { allowed := decide (0 < max 0 (quotaLimit sampleQuotas "daily_requests" -
          usageField sampleUsage "daily_requests")),
        remaining := some (max 0 (quotaLimit sampleQuotas "daily_requests" -
          usageField sampleUsage "daily_requests")),
        limit := some (quotaLimit sampleQuotas "daily_requests"),
        used := some (usageField sampleUsage "daily_requests") } ∧
    (trackUsage (some sampleUsage)
        { total_tokens := 7, estimated_cost := 0 } 100000000).daily_requests = 1 := by
  have h := checkQuota_pure_read_no_reset
    { quotas := some sampleQuotas } sampleQuotas rfl sampleUsage "daily_requests"
  exact ⟨h.1, (h.2.2 { total_tokens := 7, estimated_cost := 0 } 100000000 (by decide)).1⟩

/-- Ceiling division by 4 is subadditive: the estimate of a concatenation
never exceeds the sum of the estimates of the pieces. -/
theorem estimateTokens_append_le (s t : String) :
    estimateTokens (s ++ t) ≤ estimateTokens s + estimateTokens t := by
  unfold estimateTokens
  rw [String.length_append]
  have h1 : s.length ≤ 4 * ((s.length + 3) / 4) := by omega
  have h2 : t.length ≤ 4 * ((t.length + 3) / 4) := by omega
  omega

/-- C9 counterexample: for the Gemini reply "b" to the one-character user
prompt "a", the Google adapter reports prompt_tokens = 1 and
completion_tokens = 1 but total_tokens = ceil(2/4) = 1, so
total_tokens is not prompt_tokens + completion_tokens. -/
theorem google_total_tokens_counterexample :
    (GoogleProvider.transformResponse
        { candidates := [{ content := some { parts := [{ text := some "b" }] } }] }
        { model := "gemini", messages := [{ role := "user", content := "a" }] }).usage =
      { prompt_tokens := 1, completion_tokens := 1, total_tokens := 1 } ∧
    ¬ ((GoogleProvider.transformResponse
        { candidates := [{ content := some { parts := [{ text := some "b" }] } }] }
        { model := "gemini", messages := [{ role := "user", content := "a" }] }).usage.total_tokens =
      (GoogleProvider.transformResponse
        { candidates := [{ content := some { parts := [{ text := some "b" }] } }] }
        { model := "gemini", messages := [{ role := "user", content := "a" }] }).usage.prompt_tokens +
      (GoogleProvider.transformResponse
        { candidates := [{ content := some { parts := [{ text := some "b" }] } }] }
        { model := "gemini", messages := [{ role := "user", content := "a" }] }).usage.completion_tokens) := by
  constructor
  · rfl
  · decide

/-- C9 amended: in both adapters every token count is the ceil(chars/4)
estimate of the corresponding text, but the total is estimated over the
concatenated prompt and completion texts, so it is at most (and not in
general equal to) prompt_tokens + completion_tokens. -/
theorem transformResponse_usage_estimates (gr : GoogleProvider.GoogleResponse)
    (greq : ChatRequest) (hr : HuggingFaceProvider.HFResponse) (hreq : ChatRequest) :
    (GoogleProvider.transformResponse gr greq).usage =
      { prompt_tokens := estimateTokens (GoogleProvider.firstMessageContent greq),
        completion_tokens := estimateTokens (GoogleProvider.extractContent gr),
        total_tokens := estimateTokens
          (GoogleProvider.firstMessageContent greq ++ GoogleProvider.extractContent gr) } ∧
    (GoogleProvider.transformResponse gr greq).usage.total_tokens ≤
      (GoogleProvider.transformResponse gr greq).usage.prompt_tokens +
      (GoogleProvider.transformResponse gr greq).usage.completion_tokens ∧
    (HuggingFaceProvider.transformResponse hr hreq).usage =
      { prompt_tokens := estimateTokens (HuggingFaceProvider.userMessageContent hreq),
        completion_tokens := estimateTokens (HuggingFaceProvider.cleanContent hr hreq),
        total_tokens := estimateTokens
          (HuggingFaceProvider.userMessageContent hreq ++
            HuggingFaceProvider.cleanContent hr hreq) } ∧
    (HuggingFaceProvider.transformResponse hr hreq).usage.total_tokens ≤
      (HuggingFaceProvider.transformResponse hr hreq).usage.prompt_tokens +
      (HuggingFaceProvider.transformResponse hr hreq).usage.completion_tokens :=
  ⟨rfl, estimateTokens_append_le _ _, rfl, estimateTokens_append_le _ _⟩

/-- Appending one sample to a run of updates is one more update. -/
theorem runHealthUpdates_append (l : List HealthSample) (x : HealthSample) :
    runHealthUpdates (l ++ [x]) = some (updateHealthData (runHealthUpdates l) x) := by
  simp [runHealthUpdates, List.foldl_append]

/-- The history written by one update is the capped push of the previous
history. -/
theorem updateHealthData_history (o : Option ProviderHealth) (x : HealthSample) :
    (updateHealthData o x).history = pushCap (histOf o) x := by
  cases o <;> rfl

/-- Pushing one sample onto the trailing 100 of l keeps exactly the
trailing 100 of l ++ [x]. -/
theorem pushCap_lastN (l : List HealthSample) (x : HealthSample) :
    pushCap (lastN 100 l) x = lastN 100 (l ++ [x]) := by
  have hdlen : (l.drop (l.length - 100)).length = l.length - (l.length - 100) :=
    List.length_drop _ _
  by_cases hl : 100 ≤ l.length
  · have hdrop : l.drop (l.length - 100) ++ [x] = (l ++ [x]).drop (l.length - 100) :=
      (List.drop_append_of_le_length (by omega)).symm
    have hcond : ((l.drop (l.length - 100)) ++ [x]).length > 100 := by
      simp only [List.length_append, List.length_singleton, hdlen]
      omega
    simp only [pushCap, lastN]
    rw [if_pos hcond, hdrop, List.tail_drop]
    congr 1
    simp only [List.length_append, List.length_singleton]
    omega
  · have h0 : l.length - 100 = 0 := by omega
    simp only [pushCap, lastN]
    rw [h0, List.drop_zero, if_neg]
    · have h1 : (l ++ [x]).length - 100 = 0 := by
        simp only [List.length_append, List.length_singleton]
        omega
      rw [h1, List.drop_zero]
    · simp only [List.length_append, List.length_singleton]
      omega

/-- The history after any run of updates is the trailing 100 samples. -/
theorem runHealthUpdates_history (l : List HealthSample) :
    histOf (runHealthUpdates l) = lastN 100 l := by
  induction l using List.reverseRecOn with
  | nil => rfl
  | append_singleton l x ih =>
    rw [runHealthUpdates_append, ← pushCap_lastN, ← ih]
    exact updateHealthData_history _ _

/-- Trailing m of trailing n is trailing m, for m ≤ n. -/
theorem lastN_lastN {m n : Nat} (h : m ≤ n) (l : List α) :
    lastN m (lastN n l) = lastN m l := by
  unfold lastN
  rw [List.length_drop, List.drop_drop]
  congr 1
  omega

/-- The uptime written by the update fed with the samples so far is the
healthy ratio over the trailing 20 samples. -/
theorem updateHealthData_uptime (l : List HealthSample) (x : HealthSample) :
    (updateHealthData (runHealthUpdates l) x).uptime =
      (((lastN 20 (l ++ [x])).filter (fun s => s.status == "healthy")).length : ℚ) /
        ((lastN 20 (l ++ [x])).length : ℚ) := by
  have hh : ((runHealthUpdates l).getD initialProviderHealth).history = lastN 100 l := by
    rw [← runHealthUpdates_history]
    cases runHealthUpdates l <;> rfl
  have hlen : 0 < (lastN 20 (l ++ [x])).length := by
    unfold lastN
    simp only [List.length_drop, List.length_append, List.length_singleton]
    omega
  simp only [updateHealthData, hh, pushCap_lastN,
    lastN_lastN (show (20 : Nat) ≤ 100 by omega)]
  rw [if_pos hlen]

/-- C5: after any non-empty sequence of health updates for a provider,
the stored uptime equals the number of healthy samples among the
trailing (at most 20) samples divided by the number of those trailing
samples, and always lies in [0, 1]; before any sample is recorded the
provider has no record and the record initialiser sets uptime to 1.0. -/
theorem uptime_rolling_window (samples : List HealthSample) (p : ProviderHealth)
    (h : runHealthUpdates samples = some p) :
    (p.uptime = (((lastN 20 samples).filter (fun s => s.status == "healthy")).length : ℚ) /
        ((lastN 20 samples).length : ℚ) ∧
      0 ≤ p.uptime ∧ p.uptime ≤ 1) ∧
    runHealthUpdates [] = none ∧ initialProviderHealth.uptime = 1 := by
  refine ⟨?_, rfl, rfl⟩
  rcases List.eq_nil_or_concat samples with rfl | ⟨L, x, rfl⟩
  · exact absurd h (by simp [runHealthUpdates])
  · rw [List.concat_eq_append] at h ⊢
    rw [runHealthUpdates_append] at h
    have hp := Option.some.inj h
    subst hp
    have hup := updateHealthData_uptime L x
    have hl : 0 < (lastN 20 (L ++ [x])).length := by
      unfold lastN
      simp only [List.length_drop, List.length_append, List.length_singleton]
      omega
    refine ⟨hup, ?_, ?_⟩
    · rw [hup]
      positivity
    · rw [hup]
      rw [div_le_one (by exact_mod_cast hl)]
      exact_mod_cast List.length_filter_le _ _

/-- Witness for uptime_rolling_window after one healthy sample. -/
theorem uptime_rolling_window_witness :
    ∃ p, runHealthUpdates [healthySample] = some p ∧ 0 ≤ p.uptime ∧ p.uptime ≤ 1 := by
  refine ⟨updateHealthData none healthySample, rfl, ?_, ?_⟩
  · exact ((uptime_rolling_window [healthySample]
      (updateHealthData none healthySample) rfl).1).2.1
  · exact ((uptime_rolling_window [healthySample]
      (updateHealthData none healthySample) rfl).1).2.2

/-- selectByScore returns a permutation of its input. -/
theorem selectByScore_perm (providers : List String) (healthData : HealthData)
    (policy : Policy) : (selectByScore providers healthData policy).Perm providers := by
  unfold selectByScore scoredProviders
  have h2 : (providers.map (fun provider =>
      (provider, calculateScore provider (healthData provider) (weightsOf policy)))).map
      (fun p : String × ℚ => p.1) = providers := by
    induction providers with
    | nil => rfl
    | cons a l ih => simp only [List.map_cons, ih]
  have h1 := (List.perm_insertionSort (fun a b : String × ℚ => b.2 ≤ a.2)
    (providers.map (fun provider =>
      (provider, calculateScore provider (healthData provider) (weightsOf policy))))).map
    (fun p : String × ℚ => p.1)
  have h3 : ((providers.map (fun provider =>
      (provider, calculateScore provider (healthData provider) (weightsOf policy)))).map
      (fun p : String × ℚ => p.1)).Perm providers := by
    rw [h2]
  exact h1.trans h3

/-- C6: the policy engine first filters the candidates by the uptime
floor; when that filter empties a non-empty candidate list the engine
returns the unfiltered candidate list, otherwise a permutation of the
filtered list; in all cases a non-empty candidate list yields a
non-empty ordering. -/
theorem selectProviders_fail_open_nonempty (availableProviders : List String)
    (healthData : HealthData) (policyName : String)
    (hne : availableProviders ≠ []) :
    (uptimeFilter availableProviders healthData (resolvePolicy policyName) = [] →
      selectProviders availableProviders healthData policyName = availableProviders) ∧
    (uptimeFilter availableProviders healthData (resolvePolicy policyName) ≠ [] →
      (selectProviders availableProviders healthData policyName).Perm
        (uptimeFilter availableProviders healthData (resolvePolicy policyName))) ∧
    selectProviders availableProviders healthData policyName ≠ [] := by
  by_cases hf : uptimeFilter availableProviders healthData (resolvePolicy policyName) = []
  · have hres : selectProviders availableProviders healthData policyName =
        availableProviders := by
      simp only [selectProviders]
      rw [hf]
      rfl
    refine ⟨fun _ => hres, fun hc => absurd hf hc, ?_⟩
    intro h0
    rw [hres] at h0
    exact hne h0
  · have hfe : (uptimeFilter availableProviders healthData
        (resolvePolicy policyName)).isEmpty = false := by
      cases hu : uptimeFilter availableProviders healthData (resolvePolicy policyName) with
      | nil => exact absurd hu hf
      | cons a l => rfl
    have hperm : (selectProviders availableProviders healthData policyName).Perm
        (uptimeFilter availableProviders healthData (resolvePolicy policyName)) := by
      simp only [selectProviders, hfe, Bool.false_eq_true, if_false]
      split_ifs with h1 h2 h3
      · exact List.perm_insertionSort _ _
      · exact List.perm_insertionSort _ _
      · exact selectByScore_perm _ _ _
      · exact List.perm_insertionSort _ _
    refine ⟨fun hc => absurd hc hf, fun _ => hperm, ?_⟩
    intro h0
    rw [h0] at hperm
    exact hf (hperm.symm.eq_nil)

/-- Witness for selectProviders_fail_open_nonempty on a concrete
non-empty candidate list. -/
theorem selectProviders_fail_open_nonempty_witness :
    selectProviders ["google-gemini"] (fun _ => none) "balanced" ≠ [] :=
  (selectProviders_fail_open_nonempty ["google-gemini"] (fun _ => none) "balanced"
    (by decide)).2.2

/-- C7 counterexample: with no health data both providers receive the
same balanced score, and the engine keeps the candidate order
["zeta", "alpha"] even though "alpha" is lexicographically smaller than
"zeta": ties are not broken by provider name. -/
theorem selectProviders_tie_not_lexicographic :
    selectProviders ["zeta", "alpha"] (fun _ => none) "balanced" = ["zeta", "alpha"] ∧
    calculateScore "zeta" none (weightsOf balancedPolicy) =
      calculateScore "alpha" none (weightsOf balancedPolicy) ∧
    "alpha".data < "zeta".data := by
  have hsc : calculateScore "alpha" none (weightsOf balancedPolicy) =
      calculateScore "zeta" none (weightsOf balancedPolicy) := rfl
  refine ⟨?_, rfl, by decide⟩
  have key : ∀ s : ℚ, List.insertionSort (fun a b : String × ℚ => b.2 ≤ a.2)
      [("zeta", s), ("alpha", s)] = [("zeta", s), ("alpha", s)] := by
    intro s
    simp [List.insertionSort, List.orderedInsert]
  show (List.insertionSort (fun a b : String × ℚ => b.2 ≤ a.2)
      [("zeta", calculateScore "zeta" none (weightsOf balancedPolicy)),
       ("alpha", calculateScore "alpha" none (weightsOf balancedPolicy))]).map
      (fun p => p.1) = ["zeta", "alpha"]
  rw [hsc, key]
  rfl

/-- C7 amended: the policy engine is a pure function of its inputs, so
identical candidate lists, health snapshots and policy names give
identical output; and under the balanced policy two providers with equal
score keep their candidate-list order (the sort is stable): ties are
broken by input position, not by lexicographic provider name. -/
theorem selectProviders_balanced_ties_stable (availableProviders : List String)
    (healthData : HealthData) (p q : String)
    (hsub : [p, q].Sublist (uptimeFilter availableProviders healthData balancedPolicy))
    (hscore : calculateScore p (healthData p) (weightsOf balancedPolicy) =
      calculateScore q (healthData q) (weightsOf balancedPolicy)) :
    [p, q].Sublist (selectProviders availableProviders healthData "balanced") := by
  have hf : uptimeFilter availableProviders healthData balancedPolicy ≠ [] := by
    intro h0
    rw [h0] at hsub
    exact absurd (List.sublist_nil.mp hsub) (by simp)
  have hfe : (uptimeFilter availableProviders healthData balancedPolicy).isEmpty = false := by
    cases hu : uptimeFilter availableProviders healthData balancedPolicy with
    | nil => exact absurd hu hf
    | cons a l => rfl
  have hrp : resolvePolicy "balanced" = balancedPolicy := rfl
  have hsel : selectProviders availableProviders healthData "balanced" =
      selectByScore (uptimeFilter availableProviders healthData balancedPolicy)
        healthData balancedPolicy := by
    simp only [selectProviders, hrp, hfe, Bool.false_eq_true, if_false]
    rfl
  rw [hsel]
  unfold selectByScore
  have hsub2 : [(p, calculateScore p (healthData p) (weightsOf balancedPolicy)),
      (q, calculateScore q (healthData q) (weightsOf balancedPolicy))].Sublist
      (scoredProviders (uptimeFilter availableProviders healthData balancedPolicy)
        healthData balancedPolicy) := by
    unfold scoredProviders
    exact List.Sublist.map
      (fun provider => (provider, calculateScore provider (healthData provider)
        (weightsOf balancedPolicy))) hsub
  have hr : (fun a b : String × ℚ => b.2 ≤ a.2)
      (p, calculateScore p (healthData p) (weightsOf balancedPolicy))
      (q, calculateScore q (healthData q) (weightsOf balancedPolicy)) :=
    le_of_eq hscore.symm
  have hsorted := List.pair_sublist_insertionSort
    (r := fun a b : String × ℚ => b.2 ≤ a.2) hr hsub2
  exact hsorted.map (fun x : String × ℚ => x.1)

/-- Witness for selectProviders_balanced_ties_stable: with no health data
the providers "b" and "a" tie and keep their input order. -/
theorem selectProviders_balanced_ties_stable_witness :
    ["b", "a"].Sublist (selectProviders ["b", "a"] (fun _ => none) "balanced") :=
  selectProviders_balanced_ties_stable ["b", "a"] (fun _ => none) "b" "a" (by decide) rfl

/-- Unfolding of the failover loop over a prefix of failing providers
followed by a succeeding one, for arbitrary accumulator values. -/
theorem executeGo_prefix_fail_then_success (call : String → CallOutcome)
    (allProviders : List String) (succName : String) (rest : List String)
    (body : String) (d : Int) (hsucc : call succName = CallOutcome.success body d) :
    ∀ (failed : List String) (clock : Int) (st : RouterState)
      (attempts : List Attempt) (lastError : Option String),
      (∀ p ∈ failed, (call p).isSuccess = false) →
      executeGo call allProviders (failed ++ succName :: rest) clock st attempts lastError =
        (Except.ok
          { body := body,
            routing_metadata :=
              { primary_provider := succName,
                attempts := attempts ++ failed.map (mkAttempt call) ++
                  [{ provider := succName, status := "success", error := none, duration := d }],
                total_processing_time := d, policy_used := "intelligent_routing" } },
         applySuccessEffects (failed.foldl (failStep call) (clock, st)).2 succName d
           ((failed.foldl (failStep call) (clock, st)).1 + d)) := by
  intro failed
  induction failed with
  | nil =>
    intro clock st attempts lastError _
    simp only [List.nil_append, List.map_nil, List.append_nil, List.foldl_nil]
    simp only [executeGo, hsucc]
  | cons p ps ih =>
    intro clock st attempts lastError hfail
    have hp := hfail p (List.mem_cons_self p ps)
    cases hcall : call p with
    | success b dd => rw [hcall] at hp; exact absurd hp (by simp [CallOutcome.isSuccess])
    | failure m dd =>
      have hstep : executeGo call allProviders ((p :: ps) ++ succName :: rest)
          clock st attempts lastError =
          executeGo call allProviders (ps ++ succName :: rest) (clock + dd)
            (applyFailureEffects st p (clock + dd))
            (attempts ++ [{ provider := p, status := "failed", error := some m, duration := dd }])
            (some m) := by
        simp only [List.cons_append, executeGo, hcall]
        rfl
      rw [hstep, ih (clock + dd) (applyFailureEffects st p (clock + dd)) _ _
        (fun q hq => hfail q (List.mem_cons_of_mem p hq))]
      have hfold : (p :: ps).foldl (failStep call) (clock, st) =
          ps.foldl (failStep call) (clock + dd, applyFailureEffects st p (clock + dd)) := by
        rw [List.foldl_cons]
        simp only [failStep, hcall, CallOutcome.duration]
      have hatt : attempts ++ (p :: ps).map (mkAttempt call) =
          (attempts ++ [{ provider := p, status := "failed", error := some m, duration := dd }]) ++
            ps.map (mkAttempt call) := by
        simp only [List.map_cons, List.append_assoc, List.singleton_append]
        rw [show mkAttempt call p =
          { provider := p, status := "failed", error := some m, duration := dd } by
          simp [mkAttempt, hcall]]
      rw [hfold, hatt]

/-- C1: whenever the ordered list is a block of failing providers
followed by a succeeding provider (and anything after it), the failover
executor walks the failing block sequentially in order, recording for
each failed attempt the unhealthy tracker sample and the breaker failure
before moving on (the state is the left fold of the per-failure step),
stops at the first succeeding provider without touching the providers
after it, records the healthy tracker sample and breaker success for it,
and returns its response with routing_metadata.primary_provider equal to
that provider and routing_metadata.attempts listing one failed entry per
failed provider, in order, followed by exactly one success entry. -/
theorem executeWithFailover_first_success (call : String → CallOutcome)
    (failed : List String) (succName : String) (rest : List String)
    (clock : Int) (st : RouterState) (body : String) (d : Int)
    (hfail : ∀ p ∈ failed, (call p).isSuccess = false)
    (hsucc : call succName = CallOutcome.success body d) :
    executeWithFailover call (failed ++ succName :: rest) clock st =
      (Except.ok
        { body := body,
          routing_metadata :=
            { primary_provider := succName,
              attempts := failed.map (mkAttempt call) ++
                [{ provider := succName, status := "success", error := none, duration := d }],
              total_processing_time := d, policy_used := "intelligent_routing" } },
       applySuccessEffects (failed.foldl (failStep call) (clock, st)).2 succName d
         ((failed.foldl (failStep call) (clock, st)).1 + d)) ∧
    ∀ p ∈ failed, (mkAttempt call p).status = "failed" ∧ (mkAttempt call p).provider = p := by
  constructor
  · have h := executeGo_prefix_fail_then_success call (failed ++ succName :: rest)
      succName rest body d hsucc failed clock st [] none hfail
    simpa only [List.nil_append] using h
  · intro p hp
    have hps := hfail p hp
    cases hcall : call p with
    | success b dd => rw [hcall] at hps; exact absurd hps (by simp [CallOutcome.isSuccess])
    | failure m dd => simp [mkAttempt, hcall]

/-- Witness for executeWithFailover_first_success: provider "a" fails,
then provider "b" succeeds. -/
theorem executeWithFailover_first_success_witness :
    (∀ p ∈ ["a"], (sampleCall p).isSuccess = false) ∧
    executeWithFailover sampleCall (["a"] ++ "b" :: []) 0 emptyRouterState =
      (Except.ok
        { body := "ok",
          routing_metadata :=
            { primary_provider := "b",
              attempts := ["a"].map (mkAttempt sampleCall) ++
                [{ provider := "b", status := "success", error := none, duration := 7 }],
              total_processing_time := 7, policy_used := "intelligent_routing" } },
       applySuccessEffects ((["a"].foldl (failStep sampleCall) (0, emptyRouterState))).2 "b" 7
         (((["a"].foldl (failStep sampleCall) (0, emptyRouterState))).1 + 7)) :=
  ⟨by decide,
   (executeWithFailover_first_success sampleCall ["a"] "b" [] 0 emptyRouterState "ok" 7
     (by decide) rfl).1⟩

/-- A list prefix check accepts the whole list extended by anything. -/
theorem isPrefixOf_append_self (l r : List Char) : l.isPrefixOf (l ++ r) = true := by
  induction l with
  | nil => cases r <;> rfl
  | cons a as ih => simp [List.isPrefixOf, List.cons_append, ih]

/-- String append concatenates the character data. -/
theorem string_data_append (s t : String) : (s ++ t).data = s.data ++ t.data := by
  cases s
  cases t
  rfl

/-- The ALL_PROVIDERS_FAILED message always contains the phrase the chat
route tests for. -/
theorem strIncludes_allFailedMessage (providers : List String) :
    strIncludes (allFailedMessage providers) "All providers failed" = true := by
  unfold strIncludes allFailedMessage
  rw [List.any_eq_true]
  refine ⟨("All providers failed. Attempted: " ++ joinComma providers).data,
    (List.mem_tails _ _).mpr (List.suffix_refl _), ?_⟩
  rw [string_data_append]
  have h2 : "All providers failed. Attempted: ".data =
      "All providers failed".data ++ ". Attempted: ".data := rfl
  rw [h2, List.append_assoc]
  exact isPrefixOf_append_self _ _

/-- Stepping the last-error accumulator through one failure. -/
theorem lastErrorOf_cons (call : String → CallOutcome) (p : String) (ps : List String)
    (lastError : Option String) (m : String) (hm : (call p).errMsg = some m) :
    lastErrorOf call (p :: ps) lastError = lastErrorOf call ps (some m) := by
  cases ps with
  | nil => simp [lastErrorOf, hm]
  | cons q qs =>
    simp [lastErrorOf, List.getLast?_cons_cons,
      List.getLast?_eq_getLast (q :: qs) (List.cons_ne_nil q qs)]

/-- Unfolding of the failover loop when every remaining provider fails,
for arbitrary accumulator values. -/
theorem executeGo_all_fail (call : String → CallOutcome) (allProviders : List String) :
    ∀ (providers : List String) (clock : Int) (st : RouterState)
      (attempts : List Attempt) (lastError : Option String),
      (∀ p ∈ providers, (call p).isSuccess = false) →
      executeGo call allProviders providers clock st attempts lastError =
        (Except.error
          { message := allFailedMessage allProviders,
            attempts := attempts ++ providers.map (mkAttempt call),
            lastError := lastErrorOf call providers lastError,
            providersAttempted := allProviders.length },
         (providers.foldl (failStep call) (clock, st)).2) := by
  intro providers
  induction providers with
  | nil =>
    intro clock st attempts lastError _
    simp only [List.map_nil, List.append_nil, List.foldl_nil, executeGo, lastErrorOf,
      List.getLast?_nil]
  | cons p ps ih =>
    intro clock st attempts lastError hfail
    have hp := hfail p (List.mem_cons_self p ps)
    cases hcall : call p with
    | success b dd => rw [hcall] at hp; exact absurd hp (by simp [CallOutcome.isSuccess])
    | failure m dd =>
      have hstep : executeGo call allProviders (p :: ps) clock st attempts lastError =
          executeGo call allProviders ps (clock + dd)
            (applyFailureEffects st p (clock + dd))
            (attempts ++ [{ provider := p, status := "failed", error := some m, duration := dd }])
            (some m) := by
        simp only [executeGo, hcall]
      rw [hstep, ih (clock + dd) (applyFailureEffects st p (clock + dd)) _ _
        (fun q hq => hfail q (List.mem_cons_of_mem p hq))]
      have hfold : (p :: ps).foldl (failStep call) (clock, st) =
          ps.foldl (failStep call) (clock + dd, applyFailureEffects st p (clock + dd)) := by
        rw [List.foldl_cons]
        simp only [failStep, hcall, CallOutcome.duration]
      have hatt : attempts ++ (p :: ps).map (mkAttempt call) =
          (attempts ++ [{ provider := p, status := "failed", error := some m, duration := dd }]) ++
            ps.map (mkAttempt call) := by
        simp only [List.map_cons, List.append_assoc, List.singleton_append]
        rw [show mkAttempt call p =
          { provider := p, status := "failed", error := some m, duration := dd } by
          simp [mkAttempt, hcall]]
      rw [hfold, hatt, lastErrorOf_cons call p ps lastError m (by rw [hcall]; rfl)]

/-- C2: when every ordered provider fails, the executor raises the
ALL_PROVIDERS_FAILED error carrying one failed attempt per provider in
the order tried, the message naming all attempted providers, the
attempted count and the last underlying error message; no success
response is returned; and the chat route surfaces that error as HTTP 502
bad_gateway with the per-attempt details in the error body (the
no-providers test of the handler runs first, so the message must not
contain that phrase, which holds for any provider names that do not
themselves embed it). -/
theorem executeWithFailover_all_failed_502 (call : String → CallOutcome)
    (providers : List String) (clock : Int) (st : RouterState) (duration : Int)
    (hne : providers ≠ [])
    (hfail : ∀ p ∈ providers, (call p).isSuccess = false)
    (hmsg : strIncludes (allFailedMessage providers) "No providers available" = false) :
    executeWithFailover call providers clock st =
      (Except.error
        { message := allFailedMessage providers,
          attempts := providers.map (mkAttempt call),
          lastError := (call (providers.getLast hne)).errMsg,
          providersAttempted := providers.length },
       (providers.foldl (failStep call) (clock, st)).2) ∧
    (∀ p ∈ providers, (mkAttempt call p).status = "failed") ∧
    (∀ r : SuccessResponse × RouterState,
      (executeWithFailover call providers clock st).1 ≠ Except.ok r.1) ∧
    (chatErrorResponse (allFailedMessage providers) (providers.map (mkAttempt call))
        providers.length duration).1 = 502 ∧
    (chatErrorResponse (allFailedMessage providers) (providers.map (mkAttempt call))
        providers.length duration).2.errorType = "bad_gateway" ∧
    (chatErrorResponse (allFailedMessage providers) (providers.map (mkAttempt call))
        providers.length duration).2.attempts = providers.map (mkAttempt call) := by
  have hrun : executeWithFailover call providers clock st =
      (Except.error
        { message := allFailedMessage providers,
          attempts := providers.map (mkAttempt call),
          lastError := (call (providers.getLast hne)).errMsg,
          providersAttempted := providers.length },
       (providers.foldl (failStep call) (clock, st)).2) := by
    have h := executeGo_all_fail call providers providers clock st [] none hfail
    rw [executeWithFailover, h]
    have hlast : lastErrorOf call providers none = (call (providers.getLast hne)).errMsg := by
      unfold lastErrorOf
      rw [List.getLast?_eq_getLast providers hne]
    rw [hlast]
    simp only [List.nil_append]
  have hchat : chatErrorResponse (allFailedMessage providers)
      (providers.map (mkAttempt call)) providers.length duration =
      (502, { message := allFailedMessage providers, errorType := "bad_gateway",
              attempts := providers.map (mkAttempt call),
              providers_attempted := providers.length,
              processing_time_ms := duration }) := by
    unfold chatErrorResponse
    rw [hmsg, strIncludes_allFailedMessage]
    rfl
  refine ⟨hrun, ?_, ?_, by rw [hchat], by rw [hchat], by rw [hchat]⟩
  · intro p hp
    have hps := hfail p hp
    cases hcall : call p with
    | success b dd => rw [hcall] at hps; exact absurd hps (by simp [CallOutcome.isSuccess])
    | failure m dd => simp [mkAttempt, hcall]
  · intro r
    rw [hrun]
    simp

/-- Witness for executeWithFailover_all_failed_502: the single provider
"solo" fails. -/
theorem executeWithFailover_all_failed_502_witness :
    executeWithFailover sampleFailCall ["solo"] 0 emptyRouterState =
      (Except.error
        { message := allFailedMessage ["solo"],
          attempts := ["solo"].map (mkAttempt sampleFailCall),
          lastError := (sampleFailCall (["solo"].getLast (by decide))).errMsg,
          providersAttempted := ["solo"].length },
       ((["solo"].foldl (failStep sampleFailCall) (0, emptyRouterState))).2) ∧
    (chatErrorResponse (allFailedMessage ["solo"])
        (["solo"].map (mkAttempt sampleFailCall)) ["solo"].length 3).1 = 502 := by
  have h := executeWithFailover_all_failed_502 sampleFailCall ["solo"] 0 emptyRouterState 3
    (by decide) (by decide) (by decide)
  exact ⟨h.1, h.2.2.2.1⟩

end ModelRouter
